import Mathlib

/-!
Verification development for the llm-orchestra Request Orchestration Core:
a shallow embedding of `src/routing/router.ts` (Router: route, routeStream,
buildModelChain, isRetryable) and `src/tracing/tracer.ts` (Span, Tracer),
together with theorems settling the specification claims about them.

Conventions of the embedding:
* JavaScript numbers that only ever hold non-negative integers in the code
  (timestamps, delays, retry counts) are modelled as `Nat`.
* Asynchronous effects are modelled by explicit traces: the list of sleeps
  performed by the retry loop, the list of chunks yielded by `routeStream`.
* Nondeterministic inputs (provider behaviour, measured latencies,
  `Math.random()` draws, generated ids, the clock) are oracle parameters.
* JavaScript object identity (aliasing) is modelled by an explicit heap of
  span objects addressed by `Nat` references.
-/

namespace LlmOrchestra

/-- A JavaScript value appearing in an error's `code`/`status`/`statusCode`
field: either a string or a (non-negative) number. -/
inductive JsVal where
  | str (s : String)
  | num (n : Nat)
deriving DecidableEq, Repr

/-- Stringification `String(v)` of a `JsVal` (the code stringifies non-string codes and all
defined status values). -/
def JsVal.toStr : JsVal → String
  | .str s => s
  | .num n => toString n

/-- The shape of a thrown error as inspected by `Router.isRetryable`:
optional `code`, `status`, `statusCode` fields and the `message` field
(`none` models a message that is absent or not a string). -/
structure ErrVal where
  code : Option JsVal := none
  status : Option JsVal := none
  statusCode : Option JsVal := none
  message : Option String := none
deriving DecidableEq, Repr

/-- Model of `RetryConfig` from `src/types/index.ts` as used by the router. -/
structure RetryConfig where
  maxRetries : Nat
  initialDelayMs : Nat
  maxDelayMs : Nat
  backoffMultiplier : Nat
  retryableErrors : List String
deriving DecidableEq, Repr

/-- The slice of a `CompletionResponse` the router touches: the
`meta.failoverAttempts` field it overwrites on success. -/
structure Response where
  failoverAttempts : Nat := 0
deriving DecidableEq, Repr

/-- One entry of the failover chain: `{ model, provider }`. -/
structure ChainEntry where
  model : String
  provider : String
deriving DecidableEq, Repr

/-- One element of the `attempts` log built by `route`/`routeStream`. -/
structure Attempt where
  provider : String
  model : String
  success : Bool
  error : Option ErrVal
  latencyMs : Nat
deriving DecidableEq, Repr

/-- One element of the list carried by `AllProvidersFailedError`
(`attempt.error ?? new Error('Unknown error')` applied to an `Attempt`). -/
structure FailureAttempt where
  provider : String
  model : String
  error : ErrVal
  latencyMs : Nat
  success : Bool
deriving DecidableEq, Repr

/-- The error `new Error('Unknown error')`. -/
def unknownError : ErrVal := { message := some "Unknown error" }

/-- The per-attempt map applied when constructing `AllProvidersFailedError`. -/
def toFailureAttempt (a : Attempt) : FailureAttempt :=
  ⟨a.provider, a.model, a.error.getD unknownError, a.latencyMs, a.success⟩

/-- The attempt list carried by a thrown `AllProvidersFailedError`. -/
def failedErrorAttempts (attempts : List Attempt) : List FailureAttempt :=
  attempts.map toFailureAttempt

/-- Test whether `a` begins the list `b` (character-level model of string prefixing used
by the substring test below). -/
def listHasPre : List Char → List Char → Bool
  | [], _ => true
  | _ :: _, [] => false
  | a :: as, b :: bs => a == b && listHasPre as bs

/-- JavaScript `s.includes(tok)`: `tok` occurs contiguously inside `s`. -/
def strIncludes (s tok : String) : Bool :=
  s.toList.tails.any (fun t => listHasPre tok.toList t)

/-- The mathematical substring relation, used to state the specification's
"found as a substring" claim independently of the executable test. -/
def SubstrOf (tok s : String) : Prop :=
  ∃ u v, s.toList = u ++ tok.toList ++ v

/-- The stringified `code` field read by `isRetryable`
(`typeof rawCode === 'string' ? rawCode : rawCode !== undefined ? String(rawCode) : ''`). -/
def errCodeStr (e : ErrVal) : String :=
  match e.code with
  | some v => v.toStr
  | none => ""

/-- The stringified `status ?? statusCode` field read by `isRetryable`. -/
def errStatusStr (e : ErrVal) : String :=
  match e.status with
  | some v => v.toStr
  | none =>
    match e.statusCode with
    | some v => v.toStr
    | none => ""

/-- The `message` field read by `isRetryable` (empty when absent/non-string). -/
def errMessageStr (e : ErrVal) : String :=
  e.message.getD ""

/-- Model of `Router.isRetryable`: some configured retryable-error token occurs in the
error's code, status, or message. -/
def isRetryable (cfg : RetryConfig) (e : ErrVal) : Bool :=
  cfg.retryableErrors.any (fun c =>
    strIncludes (errCodeStr e) c ||
    strIncludes (errStatusStr e) c ||
    strIncludes (errMessageStr e) c)

/-- One chunk of a completion stream, reduced to the parts `routeStream`
inspects: optional content and the optional `meta` object, itself reduced to
its `failoverAttempts` field (the only field the router writes). -/
structure ChunkMeta where
  failoverAttempts : Nat := 0
deriving DecidableEq, Repr

structure Chunk where
  content : Option String := none
  meta : Option ChunkMeta := none
deriving DecidableEq, Repr

/-- A provider adapter's behaviour, as the router observes it.
`complete model k` is the outcome of the `k`-th call of `adapter.complete`
for `model` within one entry's retry loop (the race against the timeout is
folded into the outcome: a timeout loss is an `ErrVal` with code
`TIMEOUT`).  `streamChunks model` gives the chunks the adapter's stream
yields before it either finishes (`none`) or throws (`some err`). -/
structure Adapter where
  complete : String → Nat → Except ErrVal Response
  streamChunks : String → List Chunk × Option ErrVal

/-- Result of running the retry loop of `route` on one chain entry:
the attempts appended, the backoff sleeps performed (in order), and the
successful response together with the retry index at which it occurred. -/
structure EntryRun where
  attempts : List Attempt
  sleeps : List Nat
  result : Option (Response × Nat)
deriving Repr

/-- The body of `for (let retry = 0; retry <= maxRetries; retry++)` in
`Router.route`.  `remaining` is the number of loop iterations left
(`maxRetries + 1 - retry` at the top-level call); `lat k` is the measured
latency of the `k`-th attempt. -/
def tryEntryAux (cfg : RetryConfig) (beh : Nat → Except ErrVal Response)
    (lat : Nat → Nat) (prov model : String) : Nat → Nat → EntryRun
  | 0, _ => ⟨[], [], none⟩
  | _remaining + 1, retry =>
    match beh retry with
    | .ok resp =>
      ⟨[⟨prov, model, true, none, lat retry⟩], [], some (resp, retry)⟩
    | .error err =>
      let a : Attempt := ⟨prov, model, false, some err, lat retry⟩
      if !(isRetryable cfg err) || retry == cfg.maxRetries then
        ⟨[a], [], none⟩
      else
        let d := min (cfg.initialDelayMs * cfg.backoffMultiplier ^ retry)
          cfg.maxDelayMs
        let rest := tryEntryAux cfg beh lat prov model _remaining (retry + 1)
        ⟨a :: rest.attempts, d :: rest.sleeps, rest.result⟩

/-- The retry loop of `Router.route` for one configured chain entry. -/
def tryEntry (cfg : RetryConfig) (beh : Nat → Except ErrVal Response)
    (lat : Nat → Nat) (prov model : String) : EntryRun :=
  tryEntryAux cfg beh lat prov model (cfg.maxRetries + 1) 0

/-- The error ``new Error (`Provider ${provider} not configured`)``. -/
def notConfiguredError (prov : String) : ErrVal :=
  { message := some ("Provider " ++ prov ++ " not configured") }

/-- The attempt `route` pushes for a chain entry with no configured adapter
(latency 0, failure, the not-configured error). -/
def notConfiguredAttempt (e : ChainEntry) : Attempt :=
  ⟨e.provider, e.model, false, some (notConfiguredError e.provider), 0⟩

/-- Outcome of `Router.route`: a returned `RouteResult` or a thrown
`AllProvidersFailedError`; both carry the full attempt log. -/
inductive RouteOutcome where
  | success (resp : Response) (attempts : List Attempt)
  | allFailed (attempts : List Attempt)
deriving DecidableEq, Repr

/-- A complete run of `Router.route`: its outcome and the trace of backoff
sleeps it performed. -/
structure RouteRun where
  outcome : RouteOutcome
  sleeps : List Nat
deriving DecidableEq, Repr

/-- The chain loop of `Router.route`.  `providers` is the configured
adapter map; `lat prov model k` the measured latency oracle. -/
def routeAux (cfg : RetryConfig) (providers : String → Option Adapter)
    (lat : String → String → Nat → Nat) :
    List ChainEntry → List Attempt → List Nat → RouteRun
  | [], attempts, sleeps => ⟨.allFailed attempts, sleeps⟩
  | e :: rest, attempts, sleeps =>
    match providers e.provider with
    | none =>
      routeAux cfg providers lat rest (attempts ++ [notConfiguredAttempt e]) sleeps
    | some ad =>
      let run := tryEntry cfg (ad.complete e.model) (lat e.provider e.model)
        e.provider e.model
      match run.result with
      | some (resp, j) =>
        -- response.meta.failoverAttempts = attempts.length, read just
        -- before the success attempt is pushed: previous entries'
        -- attempts plus the j failures of this entry.
        ⟨.success { resp with failoverAttempts := attempts.length + j }
          (attempts ++ run.attempts), sleeps ++ run.sleeps⟩
      | none =>
        routeAux cfg providers lat rest (attempts ++ run.attempts)
          (sleeps ++ run.sleeps)

/-- Model of `Router.route` on an already-built model chain. -/
def route (cfg : RetryConfig) (providers : String → Option Adapter)
    (lat : String → String → Nat → Nat) (chain : List ChainEntry) : RouteRun :=
  routeAux cfg providers lat chain [] []

/-- The attempts `route` records for a single chain entry. -/
def entryAttempts (cfg : RetryConfig) (providers : String → Option Adapter)
    (lat : String → String → Nat → Nat) (e : ChainEntry) : List Attempt :=
  match providers e.provider with
  | none => [notConfiguredAttempt e]
  | some ad =>
    (tryEntry cfg (ad.complete e.model) (lat e.provider e.model)
      e.provider e.model).attempts

/-- The `CompletionRequest` fields `buildModelChain` reads. -/
structure CompletionRequest where
  model : String
  fallback : Option (List String) := none
deriving DecidableEq, Repr

/-- Model of `Router.buildModelChain`: resolve the primary model, then each fallback
model in order; unresolved names are dropped. -/
def buildModelChain (resolve : String → Option String)
    (req : CompletionRequest) : List ChainEntry :=
  (match resolve req.model with
   | some p => [⟨req.model, p⟩]
   | none => []) ++
  (match req.fallback with
   | some fs => fs.filterMap (fun m => (resolve m).map (fun p => ⟨m, p⟩))
   | none => [])

/-- Chunk augmentation `if (chunk.meta) chunk.meta.failoverAttempts = attempts.length`. -/
def augmentChunk (n : Nat) (c : Chunk) : Chunk :=
  match c.meta with
  | some m => { c with meta := some { m with failoverAttempts := n } }
  | none => c

/-- Outcome of `Router.routeStream`: normal completion of a stream, or a
thrown `AllProvidersFailedError` with its attempt log. -/
inductive StreamOutcome where
  | done
  | allFailed (attempts : List Attempt)
deriving DecidableEq, Repr

/-- A complete run of `Router.routeStream`: the chunks yielded to the
caller, in order, and how the generator finished. -/
structure StreamRun where
  chunks : List Chunk
  outcome : StreamOutcome
deriving DecidableEq, Repr

/-- The chain loop of `Router.routeStream`.  The chunks an adapter's stream
yields before throwing have already been delivered to the caller, so they
stay in the output trace; the error is then caught, one failed attempt is
recorded, and the next entry is tried.  An entry with no configured adapter
is skipped with no attempt (`if (!adapter) continue`).  `latS prov model`
is the elapsed time when a stream's error is caught. -/
def routeStreamAux (providers : String → Option Adapter)
    (latS : String → String → Nat) :
    List ChainEntry → List Attempt → List Chunk → StreamRun
  | [], attempts, out => ⟨out, .allFailed attempts⟩
  | e :: rest, attempts, out =>
    match providers e.provider with
    | none => routeStreamAux providers latS rest attempts out
    | some ad =>
      let res := ad.streamChunks e.model
      let emitted := res.1.map (augmentChunk attempts.length)
      match res.2 with
      | none => ⟨out ++ emitted, .done⟩
      | some err =>
        routeStreamAux providers latS rest
          (attempts ++ [⟨e.provider, e.model, false, some err,
            latS e.provider e.model⟩])
          (out ++ emitted)

/-- Model of `Router.routeStream` on an already-built model chain. -/
def routeStream (providers : String → Option Adapter)
    (latS : String → String → Nat) (chain : List ChainEntry) : StreamRun :=
  routeStreamAux providers latS chain [] []

/-! Section: Tracer / Span embedding (`src/tracing/tracer.ts`)

Span objects are mutable JavaScript objects; `Span.end()` hands
`this.data` — the object itself, not a copy — to `Tracer.recordSpan`.
To capture that aliasing, span data lives in an explicit heap (a list of
`SpanData` addressed by allocation index) and the tracer's `spans`,
`exportQueue` and `spanStack` hold references into that heap. -/

/-- An attribute value (`unknown` in the source, restricted to the shapes
the claims need). -/
inductive Val where
  | vStr (s : String)
  | vNat (n : Nat)
  | vBool (b : Bool)
  | vNull
deriving DecidableEq, Repr

/-- JavaScript object-field assignment `m[k] = v` on a record kept as an
insertion-ordered association list: overwrite in place, else append. -/
def recSet : List (String × Val) → String → Val → List (String × Val)
  | [], k, v => [(k, v)]
  | (k', v') :: rest, k, v =>
    if k' == k then (k', v) :: rest else (k', v') :: recSet rest k v

structure SpanContext where
  traceId : String
  spanId : String
  parentSpanId : Option String := none
deriving DecidableEq, Repr

inductive SpanStatus where
  | ok
  | error
  | unset
deriving DecidableEq, Repr

structure SpanEvent where
  name : String
  timestamp : Nat
  attributes : Option (List (String × Val)) := none
deriving DecidableEq, Repr

/-- Model of `SpanData` from the source; `kind` is always `"client"` at
construction. -/
structure SpanData where
  context : SpanContext
  name : String
  kind : String
  startTime : Nat
  endTime : Option Nat := none
  status : SpanStatus
  attributes : List (String × Val)
  events : List SpanEvent
deriving DecidableEq, Repr

/-- The `Span` constructor: `traceIdOverride ?? parentContext?.traceId ??
generateId()` for the trace id, a fresh id for the span id, the parent's
span id (when any) as `parentSpanId`.  `idTrace`/`idSpan` are the values
the two potential `generateId()` calls would return; `now` is
`Date.now()`. -/
def mkSpanData (name : String) (parentContext : Option SpanContext)
    (attributes : Option (List (String × Val))) (traceIdOverride : Option String)
    (idTrace idSpan : String) (now : Nat) : SpanData where
  context :=
    { traceId := traceIdOverride.getD
        (match parentContext with
         | some p => p.traceId
         | none => idTrace)
      spanId := idSpan
      parentSpanId := parentContext.map (fun p => p.spanId) }
  name := name
  kind := "client"
  startTime := now
  endTime := none
  status := .unset
  attributes := attributes.getD []
  events := []

/-- Model of `Span.startChild`: `new Span(this.tracer, name, this.data.context,
attributes)` — no trace-id override. -/
def startChildData (parent : SpanData) (name : String)
    (attributes : Option (List (String × Val))) (idTrace idSpan : String)
    (now : Nat) : SpanData :=
  mkSpanData name (some parent.context) attributes none idTrace idSpan now

/-- The information `recordException` reads off the thrown `Error`. -/
structure ExcInfo where
  name : String
  message : String
  stack : Option String := none
deriving DecidableEq, Repr

/-- The mutations of a `Span` object other than `end()` (which also calls
into the tracer and is modelled separately). -/
inductive SpanOp where
  | setAttr (k : String) (v : Val)
  | setAttrs (kvs : List (String × Val))
  | addEvt (name : String) (attributes : Option (List (String × Val)))
  | setSt (st : SpanStatus) (msg : Option String)
  | recordExc (e : ExcInfo)
  | endOp
deriving DecidableEq, Repr

/-- Model of `Span.setStatus`: sets the status; `if (message)` (truthy: defined and
non-empty) also sets the `error.message` attribute. -/
def setStatusData (d : SpanData) (st : SpanStatus) (msg : Option String) : SpanData :=
  let d' := { d with status := st }
  match msg with
  | some m =>
    if m == "" then d'
    else { d' with attributes := recSet d'.attributes "error.message" (.vStr m) }
  | none => d'

/-- Model of `Span.addEvent` (timestamp is `Date.now()`). -/
def addEventData (d : SpanData) (name : String)
    (attributes : Option (List (String × Val))) (now : Nat) : SpanData :=
  { d with events := d.events ++ [⟨name, now, attributes⟩] }

/-- Model of `Span.recordException`: `setStatus('error', error.message)` then an
`exception` event with type/message/stacktrace (an absent stack is the
attribute value `undefined`, modelled as null). -/
def recordExceptionData (d : SpanData) (e : ExcInfo) (now : Nat) : SpanData :=
  addEventData (setStatusData d .error (some e.message)) "exception"
    (some [("exception.type", .vStr e.name),
           ("exception.message", .vStr e.message),
           ("exception.stacktrace",
             match e.stack with
             | some s => .vStr s
             | none => .vNull)]) now

/-- The data mutation of `Span.end()`: assign `endTime = Date.now()`, then
default an `unset` status to `ok`. -/
def endSpanData (d : SpanData) (now : Nat) : SpanData :=
  { d with endTime := some now,
           status := if d.status == .unset then .ok else d.status }

/-- Apply one mutation to a span's data (`endOp` covers only the data part
of `end()`; the tracer side is modelled on `TracerState`). -/
def applySpanOp (d : SpanData) (op : SpanOp) (now : Nat) : SpanData :=
  match op with
  | .setAttr k v => { d with attributes := recSet d.attributes k v }
  | .setAttrs kvs =>
    { d with attributes := kvs.foldl (fun m kv => recSet m kv.1 kv.2) d.attributes }
  | .addEvt name attributes => addEventData d name attributes now
  | .setSt st msg => setStatusData d st msg
  | .recordExc e => recordExceptionData d e now
  | .endOp => endSpanData d now

/-- Apply a timed sequence of mutations to a span's data. -/
def applySpanOps (d : SpanData) : List (SpanOp × Nat) → SpanData
  | [] => d
  | (op, t) :: rest => applySpanOps (applySpanOp d op t) rest

/-- Model of `TracingConfig` as read by `shouldSample` (export endpoint omitted: the
modelled configurations have none, under which `flush()` is a no-op and the
auto-flush inside `recordSpan` has no effect on any modelled state). -/
structure TracingConfig where
  enabled : Bool
  sampleRate : Option ℚ := none

/-- Model of `Tracer.shouldSample`; `randq tick` is the `Math.random()` draw the
`tick`-th call would make. -/
def shouldSample (cfg : TracingConfig) (randq : Nat → ℚ) (tick : Nat) : Bool :=
  if !cfg.enabled then false
  else
    match cfg.sampleRate with
    | none => true
    | some r => decide (randq tick < r)

/-- Tracer state: the heap of span objects, and the tracer's three
reference lists (`spans` is the recorded list; its elements are references,
i.e. aliases of live span objects). `sampleTick` counts `shouldSample`
calls to index the `Math.random()` oracle. -/
structure TracerState where
  heap : List SpanData
  spans : List Nat
  exportQueue : List Nat
  stack : List Nat
  sampleTick : Nat
deriving Repr

/-- The empty tracer (fresh `new Tracer(config)`). -/
def initTracer : TracerState := ⟨[], [], [], [], 0⟩

/-- In-place update of the heap object at reference `r`. -/
def updateSpan : List SpanData → Nat → (SpanData → SpanData) → List SpanData
  | [], _, _ => []
  | d :: rest, 0, f => f d :: rest
  | d :: rest, n + 1, f => d :: updateSpan rest n f

/-- Model of `array.splice(array.lastIndexOf(x), 1)`: remove the last occurrence. -/
def removeLastOcc (l : List Nat) (r : Nat) : List Nat :=
  (l.reverse.erase r).reverse

/-- Model of `Tracer.startSpan`: compute the parent context (explicit parent, else —
unless a trace id override is given — the current span's context), allocate
the span on the heap, push it on the span stack, return its reference. -/
def startSpanOp (st : TracerState) (name : String)
    (attributes : Option (List (String × Val)))
    (parentContext : Option SpanContext) (traceId : Option String)
    (idTrace idSpan : String) (now : Nat) : TracerState × Nat :=
  let pc : Option SpanContext :=
    match parentContext with
    | some p => some p
    | none =>
      match traceId with
      | some _ => none
      | none => (st.stack.getLast?.bind (st.heap.get? ·)).map (fun d => d.context)
  let d := mkSpanData name pc attributes traceId idTrace idSpan now
  ({ st with heap := st.heap ++ [d], stack := st.stack ++ [st.heap.length] },
   st.heap.length)

/-- A mutation of the span object at reference `r` that does not call into
the tracer (every `SpanOp` except `endOp`). -/
def mutateSpanOnState (st : TracerState) (r : Nat) (op : SpanOp) (now : Nat) :
    TracerState :=
  { st with heap := updateSpan st.heap r (fun d => applySpanOp d op now) }

/-- Model of `Span.end()` at reference `r`: mutate the span's data, then
`recordSpan(this.data)` — appending the reference `r` itself (the alias) to
`spans` and `exportQueue` when sampled — then `endSpan(this)`, removing the
last occurrence of `r` from the span stack. -/
def endSpanOp (cfg : TracingConfig) (randq : Nat → ℚ) (st : TracerState)
    (r : Nat) (now : Nat) : TracerState :=
  let st1 := { st with heap := updateSpan st.heap r (fun d => endSpanData d now) }
  let st2 :=
    if shouldSample cfg randq st1.sampleTick then
      { st1 with spans := st1.spans ++ [r],
                 exportQueue := st1.exportQueue ++ [r],
                 sampleTick := st1.sampleTick + 1 }
    else { st1 with sampleTick := st1.sampleTick + 1 }
  { st2 with stack := removeLastOcc st2.stack r }

/-- What `getSpans()` lets a caller observe: the recorded spans' current
data (each recorded entry is an alias of its span object). -/
def recordedData (st : TracerState) : List (Option SpanData) :=
  st.spans.map (fun r => st.heap.get? r)

/-- Mutations applied after recording, all targeting reference `r`. -/
def mutateSeq (st : TracerState) (r : Nat) : List (SpanOp × Nat) → TracerState
  | [] => st
  | (op, t) :: rest => mutateSeq (mutateSpanOnState st r op t) r rest

/-! Section: concrete fixtures

Small concrete configurations, adapters and tracer runs used to
instantiate the theorems on explicit inputs. -/

/-- A network error whose code matches the default retryable token set. -/
def errE : ErrVal := { code := some (.str "NETWORK_ERROR") }

/-- A retry configuration with one retry and two retryable tokens. -/
def cfgW : RetryConfig := ⟨1, 10, 50, 2, ["NETWORK_ERROR", "503"]⟩

/-- A retry configuration whose retryable-error set is empty. -/
def cfgEmptyRetry : RetryConfig := ⟨3, 10, 50, 2, []⟩

/-- An adapter that always fails with `errE`, on completions and streams. -/
def adFail : Adapter := ⟨fun _ _ => .error errE, fun _ => ([], some errE)⟩

/-- A provider map configuring only `anthropic` (with `adFail`). -/
def providersW : String → Option Adapter :=
  fun p => if p == "anthropic" then some adFail else none

/-- A constant-zero latency oracle for `route`. -/
def latW : String → String → Nat → Nat := fun _ _ _ => 0

/-- A constant-zero latency oracle for `routeStream`. -/
def latSW : String → String → Nat := fun _ _ => 0

/-- A chain entry whose provider is configured in `providersW`. -/
def eW : ChainEntry := ⟨"claude-3-sonnet", "anthropic"⟩

/-- A chain entry whose provider is not configured in `providersW`. -/
def eMissing : ChainEntry := ⟨"gpt-4", "openai"⟩

/-- An always-sampling tracing configuration (enabled, no sample rate). -/
def c2Cfg : TracingConfig := ⟨true, none⟩

/-- Tracer state after starting one span at time 0. -/
def c2StateStart : TracerState :=
  (startSpanOp initTracer "operation" none none none "t1" "s1" 0).1

/-- Tracer state after additionally ending that span at time 5 (the span is
recorded at this point). -/
def c2StateEnd : TracerState := endSpanOp c2Cfg (fun _ => 0) c2StateStart 0 5

/-- Tracer state after additionally calling `setAttribute` on the already
ended (and recorded) span at time 9. -/
def c2StateMut : TracerState :=
  mutateSpanOnState c2StateEnd 0 (.setAttr "later" (.vStr "mutated")) 9

/-- A span created at time 0 with no parent and no overrides. -/
def c9Span : SpanData := mkSpanData "operation" none none none "tid" "sid" 0

/-! Section: helper lemmas -/

theorem listHasPre_iff (a : List Char) : ∀ b, listHasPre a b = true ↔ ∃ v, b = a ++ v := by
  induction a with
  | nil =>
    intro b
    simp [listHasPre]
  | cons x xs ih =>
    intro b
    cases b with
    | nil =>
      simp [listHasPre]
    | cons y ys =>
      simp only [listHasPre, Bool.and_eq_true, beq_iff_eq, ih ys]
      constructor
      · rintro ⟨rfl, v, rfl⟩
        exact ⟨v, rfl⟩
      · rintro ⟨v, hv⟩
        injection hv with h1 h2
        exact ⟨h1.symm, v, h2⟩

theorem strIncludes_iff (s tok : String) :
    strIncludes s tok = true ↔ SubstrOf tok s := by
  unfold strIncludes SubstrOf
  rw [List.any_eq_true]
  constructor
  · rintro ⟨t, ht, hp⟩
    rw [List.mem_tails] at ht
    obtain ⟨u, hu⟩ := ht
    obtain ⟨v, rfl⟩ := (listHasPre_iff tok.toList t).1 hp
    exact ⟨u, v, by rw [← hu, List.append_assoc]⟩
  · rintro ⟨u, v, hs⟩
    refine ⟨tok.toList ++ v, ?_, ?_⟩
    · rw [List.mem_tails]
      exact ⟨u, by rw [hs, List.append_assoc]⟩
    · exact (listHasPre_iff tok.toList _).2 ⟨v, rfl⟩

/-- Every backoff sleep performed by the retry loop follows the exponential
formula: the `k`-th sleep of a loop starting at retry index `retry` is
`min(initialDelayMs * backoffMultiplier ^ (retry + k), maxDelayMs)`. -/
theorem tryEntryAux_sleeps (cfg : RetryConfig) (beh : Nat → Except ErrVal Response)
    (lat : Nat → Nat) (prov model : String) :
    ∀ remaining retry,
      (tryEntryAux cfg beh lat prov model remaining retry).sleeps =
        (List.range (tryEntryAux cfg beh lat prov model remaining retry).sleeps.length).map
          (fun k => min (cfg.initialDelayMs * cfg.backoffMultiplier ^ (retry + k))
            cfg.maxDelayMs) := by
  intro remaining
  induction remaining with
  | zero =>
    intro retry
    simp [tryEntryAux]
  | succ n ih =>
    intro retry
    cases hb : beh retry with
    | ok resp =>
      simp [tryEntryAux, hb]
    | error err =>
      by_cases hc : (!(isRetryable cfg err) || retry == cfg.maxRetries) = true
      · simp [tryEntryAux, hb, hc]
      · rw [Bool.not_eq_true] at hc
        simp only [tryEntryAux, hb, hc, Bool.false_eq_true, if_false]
        simp only [List.length_cons, List.range_succ_eq_map, List.map_cons,
          List.map_map]
        have hfe : (fun k => min (cfg.initialDelayMs *
            cfg.backoffMultiplier ^ (retry + 1 + k)) cfg.maxDelayMs) =
            ((fun k => min (cfg.initialDelayMs *
              cfg.backoffMultiplier ^ (retry + k)) cfg.maxDelayMs) ∘ Nat.succ) := by
          funext k
          have h1 : retry + 1 + k = retry + (k + 1) := by omega
          simp only [Function.comp, Nat.succ_eq_add_one]
          rw [h1]
        rw [Nat.add_zero]
        congr 1
        conv_lhs => rw [ih (retry + 1)]
        rw [hfe]

/-- The retry loop records one more attempt than it performs sleeps:
no sleep follows a success, a non-retryable failure, or the failure of the
last allowed attempt of an entry. -/
theorem tryEntryAux_length (cfg : RetryConfig) (beh : Nat → Except ErrVal Response)
    (lat : Nat → Nat) (prov model : String) :
    ∀ remaining retry, retry + remaining = cfg.maxRetries + 1 → 0 < remaining →
      (tryEntryAux cfg beh lat prov model remaining retry).attempts.length =
        (tryEntryAux cfg beh lat prov model remaining retry).sleeps.length + 1 := by
  intro remaining
  induction remaining with
  | zero =>
    intro retry _ hpos
    exact absurd hpos (by simp)
  | succ n ih =>
    intro retry hinv _
    cases hb : beh retry with
    | ok resp =>
      simp [tryEntryAux, hb]
    | error err =>
      by_cases hc : (!(isRetryable cfg err) || retry == cfg.maxRetries) = true
      · simp [tryEntryAux, hb, hc]
      · rw [Bool.not_eq_true] at hc
        have hne : retry ≠ cfg.maxRetries := by
          intro h
          simp [h] at hc
        have hnpos : 0 < n := by omega
        simp only [tryEntryAux, hb, hc, Bool.false_eq_true, if_false,
          List.length_cons]
        rw [ih (retry + 1) (by omega) hnpos]

/-- If the provider fails with a retryable error on every call, the retry
loop consumes its whole budget: `remaining` failed attempts, no success. -/
theorem tryEntryAux_allFail (cfg : RetryConfig) (beh : Nat → Except ErrVal Response)
    (lat : Nat → Nat) (prov model : String)
    (hf : ∀ k, ∃ err, beh k = .error err ∧ isRetryable cfg err = true) :
    ∀ remaining retry, retry + remaining = cfg.maxRetries + 1 →
      (tryEntryAux cfg beh lat prov model remaining retry).result = none ∧
      (tryEntryAux cfg beh lat prov model remaining retry).attempts.length = remaining ∧
      ∀ a ∈ (tryEntryAux cfg beh lat prov model remaining retry).attempts,
        a.success = false := by
  intro remaining
  induction remaining with
  | zero =>
    intro retry _
    refine ⟨rfl, rfl, ?_⟩
    intro a ha
    simp [tryEntryAux] at ha
  | succ n ih =>
    intro retry hinv
    obtain ⟨err, hb, hr⟩ := hf retry
    by_cases hm : retry = cfg.maxRetries
    · have hn : n = 0 := by omega
      subst hn
      subst hm
      simp [tryEntryAux, hb, hr]
    · have hc : (!(isRetryable cfg err) || retry == cfg.maxRetries) = false := by
        simp [hr, hm]
      obtain ⟨ihres, ihlen, ihmem⟩ := ih (retry + 1) (by omega)
      simp only [tryEntryAux, hb, hc, Bool.false_eq_true, if_false]
      refine ⟨ihres, by simp [ihlen], ?_⟩
      intro a ha
      rcases List.mem_cons.1 ha with h | h
      · rw [h]
      · exact ihmem a h

/-- When the chain loop of `route` ends in `AllProvidersFailedError`, the
attempt log it carries is the accumulator followed by each entry's attempts
in chain order. -/
theorem routeAux_allFailed (cfg : RetryConfig) (providers : String → Option Adapter)
    (lat : String → String → Nat → Nat) :
    ∀ (chain : List ChainEntry) (acc : List Attempt) (s : List Nat)
      (atts : List Attempt),
      (routeAux cfg providers lat chain acc s).outcome = .allFailed atts →
      atts = acc ++ (chain.map (entryAttempts cfg providers lat)).flatten := by
  intro chain
  induction chain with
  | nil =>
    intro acc s atts h
    simp only [routeAux, RouteOutcome.allFailed.injEq] at h
    simp [← h]
  | cons e rest ih =>
    intro acc s atts h
    cases hp : providers e.provider with
    | none =>
      simp only [routeAux, hp] at h
      have := ih _ _ _ h
      simp [this, entryAttempts, hp]
    | some ad =>
      cases hres : (tryEntry cfg (ad.complete e.model) (lat e.provider e.model)
          e.provider e.model).result with
      | some rj =>
        simp [routeAux, hp, hres] at h
      | none =>
        simp only [routeAux, hp, hres] at h
        have := ih _ _ _ h
        simp [this, entryAttempts, hp]

/-- Helper: `setStatusData` touches only `status` and `attributes`. -/
theorem setStatusData_fields (d : SpanData) (st : SpanStatus) (msg : Option String) :
    (setStatusData d st msg).startTime = d.startTime ∧
    (setStatusData d st msg).endTime = d.endTime := by
  unfold setStatusData
  cases msg with
  | none => exact ⟨rfl, rfl⟩
  | some m =>
    by_cases h : (m == "") = true <;> simp [h]

/-- A single span mutation never changes `startTime`. -/
theorem applySpanOp_startTime (d : SpanData) (op : SpanOp) (t : Nat) :
    (applySpanOp d op t).startTime = d.startTime := by
  cases op with
  | setAttr k v => rfl
  | setAttrs kvs => rfl
  | addEvt name attributes => rfl
  | setSt st msg => exact (setStatusData_fields d st msg).1
  | recordExc e => exact (setStatusData_fields d .error (some e.message)).1
  | endOp => rfl

/-- A single span mutation either leaves `endTime` unchanged (every op but
`end()`) or assigns it the current time (`end()`). -/
theorem applySpanOp_endTime (d : SpanData) (op : SpanOp) (t : Nat) :
    (applySpanOp d op t).endTime = d.endTime ∨
    (applySpanOp d op t).endTime = some t := by
  cases op with
  | setAttr k v => exact Or.inl rfl
  | setAttrs kvs => exact Or.inl rfl
  | addEvt name attributes => exact Or.inl rfl
  | setSt st msg => exact Or.inl (setStatusData_fields d st msg).2
  | recordExc e => exact Or.inl (setStatusData_fields d .error (some e.message)).2
  | endOp => exact Or.inr rfl

/-- The field `startTime` is invariant under any sequence of span mutations. -/
theorem applySpanOps_startTime (ops : List (SpanOp × Nat)) :
    ∀ d : SpanData, (applySpanOps d ops).startTime = d.startTime := by
  induction ops with
  | nil => intro d; rfl
  | cons p rest ih =>
    intro d
    obtain ⟨op, t⟩ := p
    rw [applySpanOps, ih, applySpanOp_startTime]

/-- After a sequence of span mutations, `endTime` is either its initial
value or the timestamp of one of the mutations. -/
theorem applySpanOps_endTime (ops : List (SpanOp × Nat)) :
    ∀ d : SpanData, (applySpanOps d ops).endTime = d.endTime ∨
      ∃ p ∈ ops, (applySpanOps d ops).endTime = some p.2 := by
  induction ops with
  | nil => intro d; exact Or.inl rfl
  | cons p rest ih =>
    intro d
    obtain ⟨op, t⟩ := p
    rw [applySpanOps]
    rcases ih (applySpanOp d op t) with h | ⟨q, hq, he⟩
    · rcases applySpanOp_endTime d op t with h2 | h2
      · exact Or.inl (h.trans h2)
      · exact Or.inr ⟨(op, t), List.mem_cons_self _ _, h.trans h2⟩
    · exact Or.inr ⟨q, List.mem_cons_of_mem _ hq, he⟩

/-- Updating heap slot `r` in place is observed at `r` as applying the
update to the old value. -/
theorem updateSpan_get (h : List SpanData) :
    ∀ (r : Nat) (f : SpanData → SpanData),
      (updateSpan h r f).get? r = (h.get? r).map f := by
  induction h with
  | nil => intro r f; simp [updateSpan]
  | cons d rest ih =>
    intro r f
    cases r with
    | zero => simp [updateSpan]
    | succ n => simpa [updateSpan] using ih n f

/-- Span mutations applied after recording do not touch the tracer's
recorded list, and the heap object behind reference `r` becomes the pure
fold of the mutations over its previous value. -/
theorem mutateSeq_spec (ops : List (SpanOp × Nat)) :
    ∀ (st : TracerState) (r : Nat),
      (mutateSeq st r ops).spans = st.spans ∧
      (mutateSeq st r ops).heap.get? r =
        (st.heap.get? r).map (fun d => applySpanOps d ops) := by
  induction ops with
  | nil =>
    intro st r
    refine ⟨rfl, ?_⟩
    show st.heap.get? r = (st.heap.get? r).map (fun d => applySpanOps d [])
    cases st.heap.get? r <;> rfl
  | cons p rest ih =>
    intro st r
    obtain ⟨op, t⟩ := p
    obtain ⟨ih1, ih2⟩ := ih (mutateSpanOnState st r op t) r
    rw [mutateSeq]
    refine ⟨ih1, ?_⟩
    rw [ih2]
    have hup : (mutateSpanOnState st r op t).heap.get? r =
        (st.heap.get? r).map (fun d => applySpanOp d op t) :=
      updateSpan_get st.heap r _
    rw [hup]
    cases hx : st.heap.get? r <;> simp [applySpanOps]

/-! Section: claim theorems -/

/-- C1: evaluation of `routeStream` at the failing input.  The first chain
entry's stream yields a content chunk and then throws; contrary to the
documented behaviour ("failover only on initial connection" — a mid-stream
failure should propagate to the caller once content has been yielded), the
implementation catches the mid-stream error, records a failed attempt, and
attempts the next chain entry, whose chunks are yielded after the first
entry's content: the caller observes chunks of both entries and a normal
completion instead of a propagated error. -/
theorem routeStream_midstream_failover :
    routeStream
      (fun p =>
        if p == "anthropic" then
          some ⟨fun _ _ => .error errE,
            fun _ => ([{ content := some "Hello" }], some errE)⟩
        else if p == "openai" then
          some ⟨fun _ _ => .error errE,
            fun _ => ([{ content := some "Fallback" }, { meta := some ⟨0⟩ }], none)⟩
        else none)
      latSW [⟨"claude-3-sonnet", "anthropic"⟩, ⟨"gpt-4", "openai"⟩] =
    ⟨[{ content := some "Hello" }, { content := some "Fallback" },
      { meta := some ⟨1⟩ }], .done⟩ := by
  decide

/-- C3 counterexample: for a chain entry whose provider has no configured
adapter, `routeStream` records no `Attempt` at all (the claim says exactly
one failed `Attempt` is recorded): with a single such entry the final
`AllProvidersFailedError` carries an empty attempt list. -/
theorem routeStream_unconfigured_records_nothing :
    routeStream (fun _ => none) latSW [eMissing] = ⟨[], .allFailed []⟩ ∧
    ([] : List Attempt).length = 0 := by
  decide

/-- C3 (amended): for a chain entry whose resolved provider has no
configured adapter, `route` records exactly one failed `Attempt` whose
error message is "Provider ... not configured" and moves to the next entry
without any retries, while `routeStream` records no `Attempt` for such an
entry and silently skips it. -/
theorem unconfigured_entry_behaviour (cfg : RetryConfig)
    (providers : String → Option Adapter) (lat : String → String → Nat → Nat)
    (latS : String → String → Nat) (e : ChainEntry) (rest : List ChainEntry)
    (acc : List Attempt) (s : List Nat) (out : List Chunk)
    (hp : providers e.provider = none) :
    routeAux cfg providers lat (e :: rest) acc s =
      routeAux cfg providers lat rest (acc ++ [notConfiguredAttempt e]) s ∧
    (notConfiguredAttempt e).success = false ∧
    (notConfiguredAttempt e).error =
      some { message := some ("Provider " ++ e.provider ++ " not configured") } ∧
    routeStreamAux providers latS (e :: rest) acc out =
      routeStreamAux providers latS rest acc out := by
  refine ⟨?_, rfl, rfl, ?_⟩
  · simp only [routeAux, hp]
  · simp only [routeStreamAux, hp]

/-- Witness for `unconfigured_entry_behaviour` at a concrete input. -/
theorem unconfigured_entry_behaviour_witness :
    (fun _ : String => (none : Option Adapter)) eMissing.provider = none ∧
    routeStreamAux (fun _ => none) latSW [eMissing] [] [] =
      routeStreamAux (fun _ => none) latSW [] [] [] :=
  ⟨rfl,
   (unconfigured_entry_behaviour cfgW (fun _ => none) latW latSW eMissing [] [] [] []
     rfl).2.2.2⟩

/-- C4: whenever `route` ends with `AllProvidersFailedError`, the attempt
log is the concatenation, in chain order, of each entry's attempts (so the
error contains every attempt made, in the order made), the error's list is
the order-preserving image of that log, and its length is the sum of the
per-entry attempt counts. -/
theorem route_allFailed_log (cfg : RetryConfig) (providers : String → Option Adapter)
    (lat : String → String → Nat → Nat) (chain : List ChainEntry)
    (atts : List Attempt)
    (h : (route cfg providers lat chain).outcome = .allFailed atts) :
    atts = (chain.map (entryAttempts cfg providers lat)).flatten ∧
    failedErrorAttempts atts = atts.map toFailureAttempt ∧
    (failedErrorAttempts atts).length =
      (chain.map (fun e => (entryAttempts cfg providers lat e).length)).sum := by
  have h1 := routeAux_allFailed cfg providers lat chain [] [] atts h
  simp only [List.nil_append] at h1
  refine ⟨h1, rfl, ?_⟩
  rw [failedErrorAttempts, List.length_map, h1, List.length_flatten, List.map_map]
  rfl

/-- Witness for `route_allFailed_log` at a concrete input. -/
theorem route_allFailed_log_witness :
    [notConfiguredAttempt eMissing] =
      ([eMissing].map (entryAttempts cfgW (fun _ => none) latW)).flatten ∧
    failedErrorAttempts [notConfiguredAttempt eMissing] =
      [notConfiguredAttempt eMissing].map toFailureAttempt ∧
    (failedErrorAttempts [notConfiguredAttempt eMissing]).length =
      ([eMissing].map (fun e => (entryAttempts cfgW (fun _ => none) latW e).length)).sum :=
  route_allFailed_log cfgW (fun _ => none) latW [eMissing]
    [notConfiguredAttempt eMissing] (by decide)

/-- C5: a configured chain entry whose completion call always fails with a
retryable error records exactly `maxRetries + 1` attempts, all failed, and
`route` then moves on to the rest of the chain. -/
theorem retryable_failures_exhaust_budget (cfg : RetryConfig)
    (providers : String → Option Adapter) (lat : String → String → Nat → Nat)
    (e : ChainEntry) (rest : List ChainEntry) (ad : Adapter)
    (hp : providers e.provider = some ad)
    (hf : ∀ k, ∃ err, ad.complete e.model k = .error err ∧
      isRetryable cfg err = true) :
    (entryAttempts cfg providers lat e).length = cfg.maxRetries + 1 ∧
    (∀ a ∈ entryAttempts cfg providers lat e, a.success = false) ∧
    (∀ acc s, routeAux cfg providers lat (e :: rest) acc s =
      routeAux cfg providers lat rest (acc ++ entryAttempts cfg providers lat e)
        (s ++ (tryEntry cfg (ad.complete e.model) (lat e.provider e.model)
          e.provider e.model).sleeps)) := by
  obtain ⟨hres, hlen, hmem⟩ := tryEntryAux_allFail cfg (ad.complete e.model)
    (lat e.provider e.model) e.provider e.model hf (cfg.maxRetries + 1) 0 (by omega)
  have hres' : (tryEntry cfg (ad.complete e.model) (lat e.provider e.model)
      e.provider e.model).result = none := hres
  have hea : entryAttempts cfg providers lat e =
      (tryEntry cfg (ad.complete e.model) (lat e.provider e.model)
        e.provider e.model).attempts := by
    simp [entryAttempts, hp]
  refine ⟨?_, ?_, ?_⟩
  · rw [hea]; exact hlen
  · rw [hea]; exact hmem
  · intro acc s
    rw [hea]
    simp only [routeAux, hp, hres']

/-- Witness for `retryable_failures_exhaust_budget` at a concrete input. -/
theorem retryable_failures_exhaust_budget_witness :
    (entryAttempts cfgW providersW latW eW).length = cfgW.maxRetries + 1 :=
  (retryable_failures_exhaust_budget cfgW providersW latW eW [] adFail rfl
    (fun _ => ⟨errE, rfl, by decide⟩)).1

/-- C6: the `k`-th backoff sleep of a chain entry's retry loop (k starting
at 0) equals `min(initialDelayMs * backoffMultiplier ^ k, maxDelayMs)`;
the loop records one more attempt than it sleeps, so no sleep follows a
non-retryable failure, a success, or the last allowed attempt; and the
example configuration `initialDelayMs = 10`, `backoffMultiplier = 2`,
`maxDelayMs = 50` with an always-retryable failure produces the sleep
sequence `10, 20, 40, 50, 50`. -/
theorem backoff_delay_schedule (cfg : RetryConfig)
    (beh : Nat → Except ErrVal Response) (lat : Nat → Nat) (prov model : String) :
    (tryEntry cfg beh lat prov model).sleeps =
      (List.range (tryEntry cfg beh lat prov model).sleeps.length).map
        (fun k => min (cfg.initialDelayMs * cfg.backoffMultiplier ^ k)
          cfg.maxDelayMs) ∧
    (tryEntry cfg beh lat prov model).attempts.length =
      (tryEntry cfg beh lat prov model).sleeps.length + 1 ∧
    (tryEntry ⟨5, 10, 50, 2, ["NETWORK_ERROR"]⟩ (fun _ => .error errE) (fun _ => 0)
      "anthropic" "claude-3-sonnet").sleeps = [10, 20, 40, 50, 50] := by
  refine ⟨?_, ?_, by decide⟩
  · have h := tryEntryAux_sleeps cfg beh lat prov model (cfg.maxRetries + 1) 0
    simp only [tryEntry]
    simpa using h
  · exact tryEntryAux_length cfg beh lat prov model (cfg.maxRetries + 1) 0
      (by omega) (Nat.succ_pos _)

/-- C7: an error is classified retryable by the router if and only if some
configured token occurs as a substring of the error's (stringified) code
field, of its stringified status/statusCode field, or of its message —
inclusive OR across the three — and with an empty retryable-error set every
configured chain entry records exactly one attempt (no retries). -/
theorem isRetryable_classification :
    (∀ (cfg : RetryConfig) (e : ErrVal), isRetryable cfg e = true ↔
      ∃ tok ∈ cfg.retryableErrors,
        (SubstrOf tok (errCodeStr e) ∨ SubstrOf tok (errStatusStr e) ∨
         SubstrOf tok (errMessageStr e))) ∧
    (∀ (cfg : RetryConfig) (e : ErrVal), cfg.retryableErrors = [] →
      isRetryable cfg e = false) ∧
    (∀ (cfg : RetryConfig) (beh : Nat → Except ErrVal Response) (lat : Nat → Nat)
      (prov model : String), cfg.retryableErrors = [] →
      (tryEntry cfg beh lat prov model).attempts.length = 1) := by
  refine ⟨?_, ?_, ?_⟩
  · intro cfg e
    unfold isRetryable
    rw [List.any_eq_true]
    simp only [Bool.or_eq_true, strIncludes_iff, or_assoc]
  · intro cfg e h
    simp [isRetryable, h]
  · intro cfg beh lat prov model h
    have hnr : ∀ err, isRetryable cfg err = false := by
      intro err
      simp [isRetryable, h]
    simp only [tryEntry]
    cases hb : beh 0 with
    | ok resp => simp [tryEntryAux, hb]
    | error err => simp [tryEntryAux, hb, hnr err]

/-- Witness for `isRetryable_classification` at concrete inputs. -/
theorem isRetryable_classification_witness :
    (isRetryable cfgW errE = true ↔
      ∃ tok ∈ cfgW.retryableErrors,
        (SubstrOf tok (errCodeStr errE) ∨ SubstrOf tok (errStatusStr errE) ∨
         SubstrOf tok (errMessageStr errE))) ∧
    cfgEmptyRetry.retryableErrors = [] ∧
    isRetryable cfgEmptyRetry errE = false ∧
    (tryEntry cfgEmptyRetry (fun _ => .error errE) (fun _ => 0)
      "anthropic" "claude-3-sonnet").attempts.length = 1 :=
  ⟨isRetryable_classification.1 cfgW errE, rfl,
   isRetryable_classification.2.1 cfgEmptyRetry errE rfl,
   isRetryable_classification.2.2 cfgEmptyRetry (fun _ => .error errE) (fun _ => 0)
     "anthropic" "claude-3-sonnet" rfl⟩

/-- C10: when neither the primary model nor any fallback model resolves to
a provider, the built chain is empty and `route` throws
`AllProvidersFailedError` with an empty attempts list, independently of the
configured adapters (no adapter is consulted: the result is the same for
every provider map). -/
theorem empty_chain_route (resolve : String → Option String)
    (req : CompletionRequest) (cfg : RetryConfig)
    (providers : String → Option Adapter) (lat : String → String → Nat → Nat)
    (hprim : resolve req.model = none)
    (hfb : ∀ m ∈ req.fallback.getD [], resolve m = none) :
    buildModelChain resolve req = [] ∧
    route cfg providers lat (buildModelChain resolve req) =
      ⟨.allFailed [], []⟩ := by
  have hchain : buildModelChain resolve req = [] := by
    unfold buildModelChain
    rw [hprim]
    cases hf : req.fallback with
    | none => rfl
    | some fs =>
      simp only [List.nil_append]
      rw [List.filterMap_eq_nil_iff]
      intro m hm
      rw [hfb m (by simpa [hf] using hm)]
      rfl
  rw [hchain]
  exact ⟨rfl, rfl⟩

/-- Witness for `empty_chain_route` at a concrete input. -/
theorem empty_chain_route_witness :
    buildModelChain (fun _ => none) ⟨"unknown-model", some ["other-model"]⟩ = [] ∧
    route cfgW providersW latW
      (buildModelChain (fun _ => none) ⟨"unknown-model", some ["other-model"]⟩) =
      ⟨.allFailed [], []⟩ :=
  empty_chain_route (fun _ => none) ⟨"unknown-model", some ["other-model"]⟩
    cfgW providersW latW rfl (fun _ _ => rfl)

/-- C8: a child span created via `startChild` has its parent's trace ID and
records the parent's span ID as its `parentSpanId`, for every parent span,
name, attribute set, generated ids and time. -/
theorem startChild_inherits (parent : SpanData) (name : String)
    (attrs : Option (List (String × Val))) (idT idS : String) (now : Nat) :
    (startChildData parent name attrs idT idS now).context.traceId =
      parent.context.traceId ∧
    (startChildData parent name attrs idT idS now).context.parentSpanId =
      some parent.context.spanId :=
  ⟨rfl, rfl⟩

/-- C2 counterexample: `end()` records the span's live data object, not a
frozen copy — a `setAttribute` performed after `end()` changes what the
tracer's recorded list exposes, even though nothing new was recorded, so
the recorded data does not equal the snapshot taken when `end()` ran. -/
theorem recorded_span_mutates_after_end :
    c2StateMut.spans = c2StateEnd.spans ∧
    recordedData c2StateMut ≠ recordedData c2StateEnd := by
  decide

/-- C2 (amended): once a sampled span is ended, the tracer's recorded list
gains a reference to the span's live data; any further sequence of
mutations (`setAttribute`, `setAttributes`, `addEvent`, `setStatus`,
`recordException`) leaves the recorded list unchanged but is fully visible
through it: the recorded entry equals the span's current (mutated) data,
i.e. the fold of the mutations over the data as of `end()`, not a frozen
snapshot. -/
theorem recordSpan_aliases_live_data (cfg : TracingConfig) (randq : Nat → ℚ)
    (st : TracerState) (r tEnd : Nat) (ops : List (SpanOp × Nat))
    (hs : shouldSample cfg randq st.sampleTick = true) :
    (endSpanOp cfg randq st r tEnd).spans = st.spans ++ [r] ∧
    (mutateSeq (endSpanOp cfg randq st r tEnd) r ops).spans =
      (endSpanOp cfg randq st r tEnd).spans ∧
    (mutateSeq (endSpanOp cfg randq st r tEnd) r ops).heap.get? r =
      ((endSpanOp cfg randq st r tEnd).heap.get? r).map
        (fun d => applySpanOps d ops) := by
  refine ⟨?_, (mutateSeq_spec ops _ r).1, (mutateSeq_spec ops _ r).2⟩
  simp [endSpanOp, hs]

/-- Witness for `recordSpan_aliases_live_data` at a concrete input. -/
theorem recordSpan_aliases_live_data_witness :
    (endSpanOp c2Cfg (fun _ => 0) c2StateStart 0 5).spans =
      c2StateStart.spans ++ [0] :=
  (recordSpan_aliases_live_data c2Cfg (fun _ => 0) c2StateStart 0 5
    [(.setAttr "later" (.vStr "mutated"), 9)] (by decide)).1

/-- C9 counterexample: `end()` assigns `endTime` unconditionally, so a
second call to `end()` re-assigns it: after ending at time 5 the recorded
end time is 5, and a further `end()` at time 7 changes it to 7 — `endTime`
is not set exactly once. -/
theorem endTime_reassigned_on_second_end :
    (applySpanOps c9Span [(.endOp, 5)]).endTime = some 5 ∧
    (applySpanOps c9Span [(.endOp, 5), (.endOp, 7)]).endTime = some 7 := by
  decide

/-- C9 (amended): over any sequence of span operations whose timestamps are
at or after the span's creation time, `startTime` never changes and any
`endTime` ever observed is ≥ `startTime`; but `endTime` is assigned anew by
every call to `end()` (it is set exactly once only if `end()` is called
exactly once). -/
theorem span_endTime_ge_startTime (name : String) (pc : Option SpanContext)
    (attrs : Option (List (String × Val))) (tio : Option String)
    (idT idS : String) (t0 : Nat) (ops : List (SpanOp × Nat))
    (hmono : ∀ p ∈ ops, t0 ≤ p.2) :
    (applySpanOps (mkSpanData name pc attrs tio idT idS t0) ops).startTime = t0 ∧
    (∀ t', (applySpanOps (mkSpanData name pc attrs tio idT idS t0) ops).endTime =
      some t' → t0 ≤ t') ∧
    (∀ (d : SpanData) (t : Nat), (applySpanOp d .endOp t).endTime = some t) := by
  refine ⟨?_, ?_, fun d t => rfl⟩
  · rw [applySpanOps_startTime]
    rfl
  · intro t' h
    rcases applySpanOps_endTime ops (mkSpanData name pc attrs tio idT idS t0) with
      h2 | ⟨p, hp, h2⟩
    · rw [h2] at h
      simp [mkSpanData] at h
    · rw [h2] at h
      injection h with h3
      rw [← h3]
      exact hmono p hp

/-- Witness for `span_endTime_ge_startTime` at a concrete input. -/
theorem span_endTime_ge_startTime_witness :
    (applySpanOps (mkSpanData "operation" none none none "tid" "sid" 1)
      [(.endOp, 5)]).startTime = 1 :=
  (span_endTime_ge_startTime "operation" none none none "tid" "sid" 1
    [(.endOp, 5)] (by decide)).1

end LlmOrchestra
